import Mathlib

/-! Shallow embedding of `registrations/tasks.py` from the
familyconnect-registration repository: the field validators and the
`ValidateRegistration` task (`check_field_values`, `validate`,
`create_subscriptionrequests`, `run`).

Python raw values are modelled by `Value`; a registration's `data` dict by an
insertion-ordered association list; a dict access that can raise `KeyError`
(and a `len()` call that can raise `TypeError`) lives in the `Except String`
monad. `utils.calc_pregnancy_week_lmp`, `utils.get_messageset_short_name` and
`utils.get_messageset_schedule_sequence` belong to
`familyconnect_registration/utils.py`, which is not among the sources; they
are modelled from the spec where marked. -/

/-- Model of a Python raw value stored in a registration's `data` mapping: a
string, an integer, or a list of strings (the validator writes its list of
failure strings back into `data`). -/
inductive Value where
  | str (s : String)
  | int (n : Int)
  | vlist (l : List String)
  deriving DecidableEq, Repr

/-- A registration's `data` dict: insertion-ordered association list without
duplicate keys. -/
abbrev Data := List (String × Value)

/-- First-match lookup, Python `d.get(k)` / `k in d`. -/
def dlookup : Data → String → Option Value
  | [], _ => none
  | (k, v) :: rest, key => if k = key then some v else dlookup rest key

/-- Python dict item assignment `d[k] = v`: replace in place, else append. -/
def dinsert : Data → String → Value → Data
  | [], k, v => [(k, v)]
  | (k', v') :: rest, k, v =>
      if k' = k then (k, v) :: rest else (k', v') :: dinsert rest k v

/-- Python subscript `d[k]`, raising `KeyError k` when the key is missing. -/
def dget (d : Data) (k : String) : Except String Value :=
  match dlookup d k with
  | some v => Except.ok v
  | none => Except.error k

/-- Python `is_valid_uuid` on a string: length 36, index 14 is `'4'`, index 19
in `['a', 'b', '8', '9']`. -/
def is_valid_uuid_str (s : String) : Bool :=
  s.data.length == 36 && s.data.get? 14 == some '4' &&
    (s.data.get? 19 == some 'a' || s.data.get? 19 == some 'b' ||
     s.data.get? 19 == some '8' || s.data.get? 19 == some '9')

/-- Python `is_valid_uuid` applied to a raw `data` value: `len` works on
strings and lists but raises `TypeError` on an integer; on a list of strings
the element comparisons mirror Python's `id[14] == '4'` etc. -/
def is_valid_uuid (v : Value) : Except String Bool :=
  match v with
  | .str s => Except.ok (is_valid_uuid_str s)
  | .vlist l =>
      Except.ok (l.length == 36 && l.get? 14 == some "4" &&
        (l.get? 19 == some "a" || l.get? 19 == some "b" ||
         l.get? 19 == some "8" || l.get? 19 == some "9"))
  | .int _ => Except.error "TypeError"

/-- Python `is_valid_lang`. -/
def is_valid_lang (v : Value) : Bool :=
  v == .str "eng_UG" || v == .str "cgg_UG" || v == .str "xog_UG" || v == .str "lug_UG"

/-- Python `is_valid_msg_type` (currently text only). -/
def is_valid_msg_type (v : Value) : Bool :=
  v == .str "text"

/-- Python `is_valid_msg_receiver`. -/
def is_valid_msg_receiver (v : Value) : Bool :=
  v == .str "head_of_household" || v == .str "mother_to_be" ||
  v == .str "family_member" || v == .str "trusted_friend"

/-- Python `is_valid_loss_reason`. -/
def is_valid_loss_reason (v : Value) : Bool :=
  v == .str "miscarriage" || v == .str "stillborn" || v == .str "baby_died"

/-- Python `is_valid_name`: any string value passes. -/
def is_valid_name (v : Value) : Bool :=
  match v with
  | .str _ => true
  | _ => false

/-- Python `is_valid_id_type`. -/
def is_valid_id_type (v : Value) : Bool :=
  v == .str "ugandan_id" || v == .str "other"

/-- Python `is_valid_id_no`: any string value passes. -/
def is_valid_id_no (v : Value) : Bool :=
  match v with
  | .str _ => true
  | _ => false

/-- Gregorian leap-year test, as in Python's `datetime`. -/
def isLeap (y : Nat) : Bool :=
  y % 4 == 0 && (y % 100 != 0 || y % 400 == 0)

/-- Length of month `m` of year `y`. -/
def daysInMonth (y m : Nat) : Nat :=
  if m == 2 then (if isLeap y then 29 else 28)
  else if m == 4 || m == 6 || m == 9 || m == 11 then 30
  else 31

/-- Day number of a Gregorian date (days since a fixed epoch; only differences
of day numbers matter). Standard civil-calendar formula, valid for `y ≥ 1`. -/
def daysFromCivil (y m d : Nat) : Nat :=
  let y' := if m ≤ 2 then y - 1 else y
  let era := y' / 400
  let yoe := y' % 400
  let mp := (m + 9) % 12
  let doy := (153 * mp + 2) / 5 + d - 1
  let doe := yoe * 365 + yoe / 4 - yoe / 100 + doy
  era * 146097 + doe

/-- Value of a decimal digit character. -/
def digitVal (c : Char) : Option Nat :=
  if c.isDigit then some (c.toNat - 48) else none

/-- Parse an eight-digit `YYYYMMDD` string (the standard form accepted by
`datetime.strptime(date, "%Y%m%d")`) to the date's day number; `none` when the
string is not a valid calendar date (Python's `datetime` requires `year ≥ 1`). -/
def parseDateDays (s : String) : Option Nat :=
  match s.data.map digitVal with
  | [some a, some b, some c, some dd, some e, some f, some g, some h] =>
      let y := 1000 * a + 100 * b + 10 * c + dd
      let m := 10 * e + f
      let d := 10 * g + h
      if 1 ≤ y ∧ 1 ≤ m ∧ m ≤ 12 ∧ 1 ≤ d ∧ d ≤ daysInMonth y m then
        some (daysFromCivil y m d)
      else none
  | _ => none

/-- Python `is_valid_date`: any `strptime` failure — including the `TypeError`
a non-string argument raises — is caught by the bare `except`, giving `False`. -/
def is_valid_date (v : Value) : Bool :=
  match v with
  | .str s => (parseDateDays s).isSome
  | _ => false

/-- Modelled from the spec: `utils.calc_pregnancy_week_lmp` (the
PregnancyCalendar of `familyconnect_registration/utils.py`, not among the
sources) — "returns the whole number of weeks elapsed between lastPeriodDate
and today; week = floor(days elapsed / 7)", with dates it cannot handle mapped
outside [2, 42]. `today` is a day number as produced by `daysFromCivil`. -/
def calc_pregnancy_week_lmp (today : Int) (v : Value) : Int :=
  match v with
  | .str s =>
      match parseDateDays s with
      | some days => Int.fdiv (today - Int.ofNat days) 7
      | none => -1000
  | _ => -1000

/-- One iteration of the `check_field_values` loop: the failure strings
contributed by `field` (`tasks.py` lines 67-109). The loop body is a sequence
of `if` clauses keyed on disjoint field-name sets, so exactly one clause (or
none) applies to a given field; the source's single date clause for
`last_period_date` / `baby_dob` / `mama_dob` is specialised here to one case
per field name. A failed dict access propagates as `Except.error` (KeyError),
as does `is_valid_uuid` on an integer (TypeError). -/
def checkField (today : Int) (d : Data) (field : String) : Except String (List String) :=
  if field = "hoh_id" ∨ field = "receiver_id" ∨ field = "operator_id" then
    match dget d field with
    | .error e => .error e
    | .ok v =>
      match is_valid_uuid v with
      | .error e => .error e
      | .ok u => .ok (if u then [] else [field])
  else if field = "language" then
    match dget d field with
    | .error e => .error e
    | .ok v => .ok (if is_valid_lang v then [] else [field])
  else if field = "msg_type" then
    match dget d field with
    | .error e => .error e
    | .ok v => .ok (if is_valid_msg_type v then [] else [field])
  else if field = "last_period_date" then
    match dget d field with
    | .error e => .error e
    | .ok v =>
      if is_valid_date v then
        let w := calc_pregnancy_week_lmp today v
        .ok (if ¬ (2 ≤ w ∧ w ≤ 42) then ["last_period_date out of range"] else [])
      else
        .ok [field]
  else if field = "baby_dob" then
    match dget d field with
    | .error e => .error e
    | .ok v => .ok (if is_valid_date v then [] else [field])
  else if field = "mama_dob" then
    match dget d field with
    | .error e => .error e
    | .ok v =>
      if is_valid_date v then
        match dget d "mama_id_type" with
        | .error e => .error e
        | .ok idt =>
          .ok (if idt ≠ Value.str "other" then ["mama_dob requires id_type other"] else [])
      else
        .ok [field]
  else if field = "msg_receiver" then
    match dget d field with
    | .error e => .error e
    | .ok v => .ok (if is_valid_msg_receiver v then [] else [field])
  else if field = "loss_reason" then
    match dget d field with
    | .error e => .error e
    | .ok v => .ok (if is_valid_loss_reason v then [] else [field])
  else if field = "hoh_name" ∨ field = "hoh_surname" ∨
      field = "mama_name" ∨ field = "mama_surname" then
    match dget d field with
    | .error e => .error e
    | .ok v => .ok (if is_valid_name v then [] else [field])
  else if field = "mama_id_type" then
    match dget d field with
    | .error e => .error e
    | .ok v => .ok (if is_valid_id_type v then [] else [field])
  else if field = "mama_id_no" then
    match dget d field with
    | .error e => .error e
    | .ok v =>
      match dget d "mama_id_type" with
      | .error e => .error e
      | .ok idt =>
        .ok ((if is_valid_id_no v then [] else [field]) ++
          (if idt ≠ Value.str "ugandan_id" then
            ["mama_id_no requires id_type ugandan_id"] else []))
  else
    .ok []

/-- Python `ValidateRegistration.check_field_values`: the failure strings of
every field of `fields`, in order. -/
def check_field_values (today : Int) (fields : List String) (d : Data) :
    Except String (List String) :=
  match fields with
  | [] => .ok []
  | f :: rest =>
    match checkField today d f with
    | .error e => .error e
    | .ok l =>
      match check_field_values today rest d with
      | .error e => .error e
      | .ok ls => .ok (l ++ ls)

/-- Model of a `Registration` row; `source.authority` is inlined as
`authority` (the Source entity is a read-only lookup). -/
structure Registration where
  mother_id : String
  stage : String
  authority : String
  data : Data
  validated : Bool
  deriving DecidableEq, Repr

/-- Python `fields_general` (`tasks.py` line 117). -/
def fields_general : List String :=
  ["hoh_id", "receiver_id", "operator_id", "language", "msg_type"]

/-- Python `fields_prebirth`. -/
def fields_prebirth : List String :=
  ["last_period_date", "msg_receiver"]

/-- Python `fields_loss`. -/
def fields_loss : List String :=
  ["loss_reason"]

/-- Python `fields_hw_id`. -/
def fields_hw_id : List String :=
  ["hoh_name", "hoh_surname", "mama_name", "mama_surname", "mama_id_type", "mama_id_no"]

/-- Python `fields_hw_dob`. -/
def fields_hw_dob : List String :=
  ["hoh_name", "hoh_surname", "mama_name", "mama_surname", "mama_id_type", "mama_dob"]

/-- The `hw_pre_id` schema: union of the general, prebirth and hw-id field
sets. Python builds it as `list(set(...))`, whose order is unspecified; the
three sets are disjoint, so concatenation realises the union. -/
def hw_pre_id : List String :=
  fields_general ++ fields_prebirth ++ fields_hw_id

/-- The `hw_pre_dob` schema: union of the general, prebirth and hw-dob field
sets. -/
def hw_pre_dob : List String :=
  fields_general ++ fields_prebirth ++ fields_hw_dob

/-- The `pbl_pre` schema: union of the general and prebirth field sets. -/
def pbl_pre : List String :=
  fields_general ++ fields_prebirth

/-- The `pbl_loss` schema: union of the general and loss field sets. -/
def pbl_loss : List String :=
  fields_general ++ fields_loss

/-- Python `set(fields).issubset(registration.data.keys())`. -/
def issubset (fields : List String) (d : Data) : Bool :=
  fields.all (fun f => (dlookup d f).isSome)

/-- Terminal rejection bookkeeping: store the reason in
`data["invalid_fields"]`. -/
def setInvalid (reg : Registration) (v : Value) : Registration :=
  { reg with data := dinsert reg.data "invalid_fields" v }

/-- Success bookkeeping of a prebirth schema branch: record `reg_type` and
`preg_week` and set `validated`. -/
def acceptPrebirth (today : Int) (reg : Registration) (name : String) (lpd : Value) :
    Registration :=
  { reg with
      data := dinsert (dinsert reg.data "reg_type" (Value.str name)) "preg_week"
        (Value.int (calc_pregnancy_week_lmp today lpd)),
      validated := true }

/-- The schema-classification half of `ValidateRegistration.validate`
(`tasks.py` lines 172-242), reached after the mother-UUID and
receiver-identity checks. The result carries the boolean outcome, the mutated
registration, and the number of `registration.save()` calls made. -/
def validateSchemas (today : Int) (reg : Registration) :
    Except String (Bool × Registration × Nat) :=
  if reg.stage = "prebirth" ∧ (reg.authority = "hw_limited" ∨ reg.authority = "hw_full") ∧
      issubset hw_pre_id reg.data then
    match check_field_values today hw_pre_id reg.data with
    | .error e => .error e
    | .ok fails =>
      if fails = [] then
        match dget reg.data "last_period_date" with
        | .error e => .error e
        | .ok lpd => .ok (true, acceptPrebirth today reg "hw_pre_id" lpd, 1)
      else
        .ok (false, setInvalid reg (Value.vlist fails), 1)
  else if reg.stage = "prebirth" ∧ (reg.authority = "hw_limited" ∨ reg.authority = "hw_full") ∧
      issubset hw_pre_dob reg.data then
    match check_field_values today hw_pre_dob reg.data with
    | .error e => .error e
    | .ok fails =>
      if fails = [] then
        match dget reg.data "last_period_date" with
        | .error e => .error e
        | .ok lpd => .ok (true, acceptPrebirth today reg "hw_pre_dob" lpd, 1)
      else
        .ok (false, setInvalid reg (Value.vlist fails), 1)
  else if reg.stage = "prebirth" ∧ (reg.authority = "patient" ∨ reg.authority = "advisor") ∧
      issubset pbl_pre reg.data then
    match check_field_values today pbl_pre reg.data with
    | .error e => .error e
    | .ok fails =>
      if fails = [] then
        match dget reg.data "last_period_date" with
        | .error e => .error e
        | .ok lpd => .ok (true, acceptPrebirth today reg "pbl_pre" lpd, 1)
      else
        .ok (false, setInvalid reg (Value.vlist fails), 1)
  else if reg.stage = "loss" ∧ (reg.authority = "patient" ∨ reg.authority = "advisor") ∧
      issubset pbl_loss reg.data then
    match check_field_values today pbl_loss reg.data with
    | .error e => .error e
    | .ok fails =>
      if fails = [] then
        .ok (true,
          { reg with data := dinsert reg.data "reg_type" (Value.str "pbl_loss"),
                     validated := true }, 1)
      else
        .ok (false, setInvalid reg (Value.vlist fails), 1)
  else
    .ok (false, setInvalid reg (Value.str "Invalid combination of fields"), 1)

/-- Python `ValidateRegistration.validate` (`tasks.py` lines 112-242). The
`Nat` component counts `registration.save()` calls; a missing dict key
surfaces as `Except.error key` (Python `KeyError`), and `is_valid_uuid` on an
integer value as `Except.error "TypeError"`. The stored reason string
`"receiver_id shoulddiffer from hoh_id and mother_id"` reproduces the
source's implicit concatenation of `"receiver_id should"` and
`"differ from hoh_id and mother_id"`, which drops the space. -/
def validate (today : Int) (reg : Registration) :
    Except String (Bool × Registration × Nat) :=
  if ¬ is_valid_uuid_str reg.mother_id then
    .ok (false, setInvalid reg (Value.str "Invalid UUID mother_id"), 1)
  else
    match dlookup reg.data "msg_receiver" with
    | some mr =>
      if mr = Value.str "head_of_household" then
        match dget reg.data "hoh_id" with
        | .error e => .error e
        | .ok hoh =>
          match dget reg.data "receiver_id" with
          | .error e => .error e
          | .ok recv =>
            if hoh ≠ recv then
              .ok (false,
                setInvalid reg (Value.str "hoh_id should be the same as receiver_id"), 1)
            else
              validateSchemas today reg
      else if mr = Value.str "mother_to_be" then
        match dget reg.data "receiver_id" with
        | .error e => .error e
        | .ok recv =>
          if Value.str reg.mother_id ≠ recv then
            .ok (false,
              setInvalid reg (Value.str "mother_id should be the same as receiver_id"), 1)
          else
            validateSchemas today reg
      else if mr = Value.str "family_member" ∨ mr = Value.str "trusted_friend" then
        match dget reg.data "receiver_id" with
        | .error e => .error e
        | .ok recv =>
          match dget reg.data "hoh_id" with
          | .error e => .error e
          | .ok hoh =>
            if recv = hoh ∨ recv = Value.str reg.mother_id then
              .ok (false,
                setInvalid reg
                  (Value.str "receiver_id shoulddiffer from hoh_id and mother_id"), 1)
            else
              validateSchemas today reg
      else
        validateSchemas today reg
    | none =>
      validateSchemas today reg

/-- A `SubscriptionRequest` row. -/
structure SubscriptionRequest where
  contact : String
  messageset : Nat
  next_sequence_number : Nat
  lang : Value
  schedule : Nat
  deriving DecidableEq, Repr

/-- Modelled from the spec: `utils.get_messageset_short_name` (the plan-name
resolver collaborator of `familyconnect_registration/utils.py`, not among the
sources) — "(msgReceiver, stage, authority) -> shortName (string
identifier)". Any total resolver satisfies the stated contract; the chosen
identifier does not influence the claims. -/
def get_messageset_short_name (_mr : Value) (stage : String) (authority : String) : String :=
  stage ++ "_" ++ authority

/-- Modelled from the spec: `utils.get_messageset_schedule_sequence` (the
schedule-resolver collaborator of `familyconnect_registration/utils.py`, not
among the sources) — "(shortName, weeks) -> (messagesetId, scheduleId,
nextSequenceNumber)" with `nextSequenceNumber ≥ 1`. The tuple is returned in
the source's unpacking order (messageset id, schedule, sequence number). -/
def get_messageset_schedule_sequence (_short : String) (_weeks : Value) :
    Nat × Nat × Nat :=
  (1, 1, 1)

/-- Python `ValidateRegistration.create_subscriptionrequests`: builds the one
`mother_sub` record; a missing `baby_age` (when `preg_week` is absent),
`msg_receiver` or `language` key raises. -/
def create_subscriptionrequests (reg : Registration) :
    Except String SubscriptionRequest :=
  match (match dlookup reg.data "preg_week" with
         | some w => Except.ok w
         | none => dget reg.data "baby_age") with
  | .error e => .error e
  | .ok weeks =>
    match dget reg.data "msg_receiver" with
    | .error e => .error e
    | .ok mr =>
      let short := get_messageset_short_name mr reg.stage reg.authority
      let t := get_messageset_schedule_sequence short weeks
      match dget reg.data "language" with
      | .error e => .error e
      | .ok lang =>
        .ok { contact := reg.mother_id, messageset := t.1,
              next_sequence_number := t.2.2, lang := lang, schedule := t.2.1 }

/-- The store one task dispatch operates on: the registration row (looked up
by id) and the `SubscriptionRequest` table. -/
structure TaskState where
  reg : Registration
  subs : List SubscriptionRequest
  deriving DecidableEq, Repr

/-- Python `ValidateRegistration.run`: validate, then on success create the
subscription request. The returned state holds the saved registration and the
grown `SubscriptionRequest` table. -/
def run (today : Int) (st : TaskState) : Except String (String × TaskState) :=
  match validate today st.reg with
  | .error e => .error e
  | .ok (b, reg', _saves) =>
    if b then
      match create_subscriptionrequests reg' with
      | .error e => .error e
      | .ok sub =>
        .ok ("Validation completed - Success", { reg := reg', subs := st.subs ++ [sub] })
    else
      .ok ("Validation completed - Failure", { reg := reg', subs := st.subs })

deriving instance DecidableEq for Except

/-- A stored failure reason is non-empty: a non-empty string or a non-empty
list of failure strings. -/
def nonEmptyValue : Value → Bool
  | .str s => s != ""
  | .vlist l => !l.isEmpty
  | .int _ => true

/-- The `data` value at key `k` is an integer (the one value class on which
`is_valid_uuid` raises `TypeError`). -/
def isIntValue : Option Value → Bool
  | some (.int _) => true
  | _ => false

/-- The schema classifier implicit in the branch guards of `validate`
(`tasks.py` lines 172-226): the first schema, in the fixed evaluation order
`hw_pre_id`, `hw_pre_dob`, `pbl_pre`, `pbl_loss`, whose stage and authority
match and whose required fields are all present; `none` when no schema
matches. The guard propositions are written exactly as in `validateSchemas`. -/
def matchedSchema (reg : Registration) : Option String :=
  if reg.stage = "prebirth" ∧ (reg.authority = "hw_limited" ∨ reg.authority = "hw_full") ∧
      issubset hw_pre_id reg.data = true then some "hw_pre_id"
  else if reg.stage = "prebirth" ∧ (reg.authority = "hw_limited" ∨ reg.authority = "hw_full") ∧
      issubset hw_pre_dob reg.data = true then some "hw_pre_dob"
  else if reg.stage = "prebirth" ∧ (reg.authority = "patient" ∨ reg.authority = "advisor") ∧
      issubset pbl_pre reg.data = true then some "pbl_pre"
  else if reg.stage = "loss" ∧ (reg.authority = "patient" ∨ reg.authority = "advisor") ∧
      issubset pbl_loss reg.data = true then some "pbl_loss"
  else none

/-- Shape of one terminal outcome of `validate`: exactly one save; a failure
leaves `validated` alone and only adds a non-empty `invalid_fields` entry; a
success sets `validated`, records the name of the schema the classifier
matched as `reg_type`, and for the prebirth schemas also `preg_week`. -/
def outcomeShape (today : Int) (reg : Registration) (b : Bool) (reg' : Registration)
    (n : Nat) : Prop :=
  n = 1 ∧ reg'.mother_id = reg.mother_id ∧ reg'.stage = reg.stage ∧
  reg'.authority = reg.authority ∧
  (b = false → reg'.validated = reg.validated ∧
    ∃ v, reg'.data = dinsert reg.data "invalid_fields" v ∧ nonEmptyValue v = true) ∧
  (b = true → reg'.validated = true ∧
    ∃ rt, matchedSchema reg = some rt ∧
      (((rt = "hw_pre_id" ∨ rt = "hw_pre_dob" ∨ rt = "pbl_pre") ∧
        reg.stage = "prebirth" ∧ issubset pbl_pre reg.data = true ∧
        ∃ lpd, dlookup reg.data "last_period_date" = some lpd ∧
          reg'.data = dinsert (dinsert reg.data "reg_type" (Value.str rt)) "preg_week"
            (Value.int (calc_pregnancy_week_lmp today lpd))) ∨
       (rt = "pbl_loss" ∧ reg.stage = "loss" ∧ issubset pbl_loss reg.data = true ∧
        reg'.data = dinsert reg.data "reg_type" (Value.str "pbl_loss"))))

/-- A well-formed v4-marker UUID string used as a mother id in the concrete
test registrations. -/
def uuidM : String := "aaaaaaaa-aaaa-4aaa-8aaa-aaaaaaaaaaaa"

/-- A well-formed v4-marker UUID string used as head-of-household id. -/
def uuidH : String := "bbbbbbbb-bbbb-4bbb-8bbb-bbbbbbbbbbbb"

/-- A well-formed v4-marker UUID string used as operator id. -/
def uuidO : String := "cccccccc-cccc-4ccc-8ccc-cccccccccccc"

/-- The fixed "today" of the concrete examples: 2024-05-01 as a day number. -/
def today0 : Int := Int.ofNat (daysFromCivil 2024 5 1)

/-- The "today" of the boundary examples: 2024-12-31 as a day number. -/
def today1 : Int := Int.ofNat (daysFromCivil 2024 12 31)

/-- Data of a fully valid public prebirth registration (all `pbl_pre` fields,
head_of_household receiver, period date 17 weeks before `today0`). -/
def dataPbl : Data :=
  [("hoh_id", Value.str uuidH), ("receiver_id", Value.str uuidH),
   ("operator_id", Value.str uuidO), ("language", Value.str "eng_UG"),
   ("msg_type", Value.str "text"), ("last_period_date", Value.str "20240101"),
   ("msg_receiver", Value.str "head_of_household")]

/-- A fully valid public prebirth registration. -/
def regPbl : Registration :=
  { mother_id := uuidM, stage := "prebirth", authority := "patient",
    data := dataPbl, validated := false }

/-- The state `validate` leaves `regPbl` in: `reg_type` and `preg_week`
recorded, `validated` set. -/
def regPblDone : Registration :=
  { regPbl with
      data := dataPbl ++ [("reg_type", Value.str "pbl_pre"), ("preg_week", Value.int 17)],
      validated := true }

/-- The one subscription request provisioned for `regPbl`. -/
def subPbl : SubscriptionRequest :=
  { contact := uuidM, messageset := 1, next_sequence_number := 1,
    lang := Value.str "eng_UG", schedule := 1 }

/-- Task state before any dispatch for `regPbl`. -/
def pblState0 : TaskState := { reg := regPbl, subs := [] }

/-- Task state after one successful dispatch for `regPbl`. -/
def pblState1 : TaskState := { reg := regPblDone, subs := [subPbl] }

/-- Task state after a second dispatch of the same registration id. -/
def pblState2 : TaskState := { reg := regPblDone, subs := [subPbl, subPbl] }

/-- A registration whose data has `msg_receiver` but neither `hoh_id` nor
`receiver_id`: the receiver-identity check then raises `KeyError`. -/
def regKeyErr : Registration :=
  { mother_id := uuidM, stage := "prebirth", authority := "patient",
    data := [("msg_receiver", Value.str "head_of_household")], validated := false }

/-- Data of a fully valid public loss registration: all `pbl_loss` fields, no
`msg_receiver` and no `baby_age` (neither is required by the schema). -/
def dataLoss : Data :=
  [("hoh_id", Value.str uuidH), ("receiver_id", Value.str uuidH),
   ("operator_id", Value.str uuidO), ("language", Value.str "eng_UG"),
   ("msg_type", Value.str "text"), ("loss_reason", Value.str "miscarriage")]

/-- A fully valid public loss registration. -/
def regLoss : Registration :=
  { mother_id := uuidM, stage := "loss", authority := "patient",
    data := dataLoss, validated := false }

/-- The state `validate` leaves `regLoss` in. -/
def regLossDone : Registration :=
  { regLoss with data := dataLoss ++ [("reg_type", Value.str "pbl_loss")],
                 validated := true }

/-- A prebirth registration with `msg_receiver = family_member` whose
`receiver_id` equals its `hoh_id`. -/
def regFam : Registration :=
  { mother_id := uuidM, stage := "prebirth", authority := "patient",
    data :=
      [("hoh_id", Value.str uuidH), ("receiver_id", Value.str uuidH),
       ("operator_id", Value.str uuidO), ("language", Value.str "eng_UG"),
       ("msg_type", Value.str "text"), ("last_period_date", Value.str "20240101"),
       ("msg_receiver", Value.str "family_member")],
    validated := false }

/-- A registration whose `mother_id` is not UUID-shaped. -/
def regBadM : Registration :=
  { mother_id := "nope", stage := "prebirth", authority := "patient",
    data := dataPbl, validated := false }

/-- Data of a health-worker prebirth registration supplying both `mama_id_no`
and `mama_dob`, so that the `hw_pre_id` and `hw_pre_dob` field sets are both
present. -/
def dataHW : Data :=
  [("hoh_id", Value.str uuidH), ("receiver_id", Value.str uuidH),
   ("operator_id", Value.str uuidO), ("language", Value.str "eng_UG"),
   ("msg_type", Value.str "text"), ("last_period_date", Value.str "20240101"),
   ("msg_receiver", Value.str "head_of_household"),
   ("hoh_name", Value.str "H"), ("hoh_surname", Value.str "S"),
   ("mama_name", Value.str "M"), ("mama_surname", Value.str "T"),
   ("mama_id_type", Value.str "ugandan_id"), ("mama_id_no", Value.str "123"),
   ("mama_dob", Value.str "19900101")]

/-- A health-worker prebirth registration matching both hw schemas. -/
def regHW : Registration :=
  { mother_id := uuidM, stage := "prebirth", authority := "hw_full",
    data := dataHW, validated := false }

/-- The state `validate` leaves `regHW` in. -/
def regHWDone : Registration :=
  { regHW with
      data := dataHW ++ [("reg_type", Value.str "hw_pre_id"), ("preg_week", Value.int 17)],
      validated := true }

/-- Data for the week-43 boundary example: period date 2024-03-05, 301 days
before `today1`. -/
def data43 : Data :=
  [("hoh_id", Value.str uuidH), ("receiver_id", Value.str uuidH),
   ("operator_id", Value.str uuidO), ("language", Value.str "eng_UG"),
   ("msg_type", Value.str "text"), ("last_period_date", Value.str "20240305"),
   ("msg_receiver", Value.str "head_of_household")]

/-- The state `validate` leaves `regFam` in: rejected with the source's
space-less receiver-conflict message. -/
def regFamDone : Registration :=
  setInvalid regFam (Value.str "receiver_id shoulddiffer from hoh_id and mother_id")

theorem dlookup_dinsert_self (d : Data) (k : String) (v : Value) :
    dlookup (dinsert d k v) k = some v := by
  induction d with
  | nil => simp [dinsert, dlookup]
  | cons hd tl ih =>
    obtain ⟨k', v'⟩ := hd
    by_cases h : k' = k <;> simp [dinsert, dlookup, h, ih]

theorem dlookup_dinsert_ne (d : Data) (k k' : String) (v : Value) (h : k' ≠ k) :
    dlookup (dinsert d k v) k' = dlookup d k' := by
  have hne : ¬ k = k' := fun hh => h hh.symm
  induction d with
  | nil => simp [dinsert, dlookup, hne]
  | cons hd tl ih =>
    obtain ⟨k'', v''⟩ := hd
    by_cases h2 : k'' = k
    · subst h2
      simp [dinsert, dlookup, hne]
    · simp [dinsert, dlookup, h2, ih]

theorem issubset_lookup (l : List String) (d : Data) (f : String)
    (h : issubset l d = true) (hf : f ∈ l) : (dlookup d f).isSome = true := by
  simp only [issubset, List.all_eq_true] at h
  exact h f hf

theorem issubset_mono (l1 l2 : List String) (d : Data)
    (hsub : ∀ f, f ∈ l1 → f ∈ l2) (h : issubset l2 d = true) :
    issubset l1 d = true := by
  simp only [issubset, List.all_eq_true] at h ⊢
  exact fun f hf => h f (hsub f hf)

theorem outcomeShape_fail (today : Int) (reg : Registration) (v : Value)
    (hv : nonEmptyValue v = true) :
    outcomeShape today reg false (setInvalid reg v) 1 :=
  ⟨rfl, rfl, rfl, rfl, fun _ => ⟨rfl, v, rfl, hv⟩, fun hb => by simp at hb⟩

theorem outcomeShape_accept_pre (today : Int) (reg : Registration) (rt : String)
    (lpd : Value) (hrt : rt = "hw_pre_id" ∨ rt = "hw_pre_dob" ∨ rt = "pbl_pre")
    (hms : matchedSchema reg = some rt)
    (hstage : reg.stage = "prebirth")
    (hsub : issubset pbl_pre reg.data = true)
    (hlpd : dlookup reg.data "last_period_date" = some lpd) :
    outcomeShape today reg true (acceptPrebirth today reg rt lpd) 1 :=
  ⟨rfl, rfl, rfl, rfl, fun hb => by simp at hb,
   fun _ => ⟨rfl, rt, hms, Or.inl ⟨hrt, hstage, hsub, lpd, hlpd, rfl⟩⟩⟩

theorem outcomeShape_accept_loss (today : Int) (reg : Registration)
    (hms : matchedSchema reg = some "pbl_loss")
    (hstage : reg.stage = "loss") (hsub : issubset pbl_loss reg.data = true) :
    outcomeShape today reg true
      { reg with data := dinsert reg.data "reg_type" (Value.str "pbl_loss"),
                 validated := true } 1 :=
  ⟨rfl, rfl, rfl, rfl, fun hb => by simp at hb,
   fun _ => ⟨rfl, "pbl_loss", hms, Or.inr ⟨rfl, hstage, hsub, rfl⟩⟩⟩

theorem dget_eq_ok (d : Data) (k : String) (v : Value) (h : dlookup d k = some v) :
    dget d k = Except.ok v := by
  simp [dget, h]

theorem dget_of_isSome (d : Data) (k : String) (h : (dlookup d k).isSome = true) :
    ∃ v, dlookup d k = some v ∧ dget d k = Except.ok v := by
  cases hv : dlookup d k with
  | none => rw [hv] at h; simp at h
  | some v => exact ⟨v, rfl, dget_eq_ok d k v hv⟩

theorem dget_ok_lookup (d : Data) (k : String) (v : Value) (h : dget d k = Except.ok v) :
    dlookup d k = some v := by
  simp only [dget] at h
  cases hlk : dlookup d k with
  | none => rw [hlk] at h; exact absurd h (by simp)
  | some w => rw [hlk] at h; simp at h; rw [h]

theorem validateSchemas_shape (today : Int) (reg : Registration) (b : Bool)
    (reg' : Registration) (n : Nat)
    (h : validateSchemas today reg = .ok (b, reg', n)) :
    outcomeShape today reg b reg' n := by
  unfold validateSchemas at h
  split at h
  case isTrue hg =>
    obtain ⟨hstage, hauth, hsub⟩ := hg
    split at h
    · exact absurd h (by simp)
    next fails hc =>
      split at h
      next hf =>
        subst hf
        split at h
        · exact absurd h (by simp)
        next lpd hdg =>
          simp only [Except.ok.injEq, Prod.mk.injEq] at h
          obtain ⟨hb, hr, hn⟩ := h
          subst hb; subst hr; subst hn
          exact outcomeShape_accept_pre today reg "hw_pre_id" lpd (Or.inl rfl)
            (by unfold matchedSchema; rw [if_pos ⟨hstage, hauth, hsub⟩]) hstage
            (issubset_mono _ _ _ (by decide) hsub) (dget_ok_lookup _ _ _ hdg)
      next hf =>
        simp only [Except.ok.injEq, Prod.mk.injEq] at h
        obtain ⟨hb, hr, hn⟩ := h
        subst hb; subst hr; subst hn
        exact outcomeShape_fail today reg _ (by simp [nonEmptyValue, hf])
  case isFalse hn1 =>
    split at h
    case isTrue hg =>
      obtain ⟨hstage, hauth, hsub⟩ := hg
      split at h
      · exact absurd h (by simp)
      next fails hc =>
        split at h
        next hf =>
          subst hf
          split at h
          · exact absurd h (by simp)
          next lpd hdg =>
            simp only [Except.ok.injEq, Prod.mk.injEq] at h
            obtain ⟨hb, hr, hn⟩ := h
            subst hb; subst hr; subst hn
            exact outcomeShape_accept_pre today reg "hw_pre_dob" lpd
              (Or.inr (Or.inl rfl))
              (by unfold matchedSchema; rw [if_neg hn1, if_pos ⟨hstage, hauth, hsub⟩])
              hstage
              (issubset_mono _ _ _ (by decide) hsub) (dget_ok_lookup _ _ _ hdg)
        next hf =>
          simp only [Except.ok.injEq, Prod.mk.injEq] at h
          obtain ⟨hb, hr, hn⟩ := h
          subst hb; subst hr; subst hn
          exact outcomeShape_fail today reg _ (by simp [nonEmptyValue, hf])
    case isFalse hn2 =>
      split at h
      case isTrue hg =>
        obtain ⟨hstage, hauth, hsub⟩ := hg
        split at h
        · exact absurd h (by simp)
        next fails hc =>
          split at h
          next hf =>
            subst hf
            split at h
            · exact absurd h (by simp)
            next lpd hdg =>
              simp only [Except.ok.injEq, Prod.mk.injEq] at h
              obtain ⟨hb, hr, hn⟩ := h
              subst hb; subst hr; subst hn
              exact outcomeShape_accept_pre today reg "pbl_pre" lpd
                (Or.inr (Or.inr rfl))
                (by unfold matchedSchema
                    rw [if_neg hn1, if_neg hn2, if_pos ⟨hstage, hauth, hsub⟩])
                hstage hsub (dget_ok_lookup _ _ _ hdg)
          next hf =>
            simp only [Except.ok.injEq, Prod.mk.injEq] at h
            obtain ⟨hb, hr, hn⟩ := h
            subst hb; subst hr; subst hn
            exact outcomeShape_fail today reg _ (by simp [nonEmptyValue, hf])
      case isFalse hn3 =>
        split at h
        case isTrue hg =>
          obtain ⟨hstage, hauth, hsub⟩ := hg
          split at h
          · exact absurd h (by simp)
          next fails hc =>
            split at h
            next hf =>
              subst hf
              simp only [Except.ok.injEq, Prod.mk.injEq] at h
              obtain ⟨hb, hr, hn⟩ := h
              subst hb; subst hr; subst hn
              exact outcomeShape_accept_loss today reg
                (by unfold matchedSchema
                    rw [if_neg hn1, if_neg hn2, if_neg hn3, if_pos ⟨hstage, hauth, hsub⟩])
                hstage hsub
            next hf =>
              simp only [Except.ok.injEq, Prod.mk.injEq] at h
              obtain ⟨hb, hr, hn⟩ := h
              subst hb; subst hr; subst hn
              exact outcomeShape_fail today reg _ (by simp [nonEmptyValue, hf])
        case isFalse =>
          simp only [Except.ok.injEq, Prod.mk.injEq] at h
          obtain ⟨hb, hr, hn⟩ := h
          subst hb; subst hr; subst hn
          exact outcomeShape_fail today reg _ (by simp [nonEmptyValue])

theorem validate_shape (today : Int) (reg : Registration) (b : Bool)
    (reg' : Registration) (n : Nat)
    (h : validate today reg = .ok (b, reg', n)) :
    outcomeShape today reg b reg' n := by
  unfold validate at h
  split at h
  case isTrue hu =>
    simp only [Except.ok.injEq, Prod.mk.injEq] at h
    obtain ⟨hb, hr, hn⟩ := h
    subst hb; subst hr; subst hn
    exact outcomeShape_fail today reg _ (by simp [nonEmptyValue])
  case isFalse hu =>
    split at h
    next mr hmr =>
      split at h
      case isTrue hmr1 =>
        split at h
        · exact absurd h (by simp)
        next hoh hhoh =>
          split at h
          · exact absurd h (by simp)
          next recv hrecv =>
            split at h
            case isTrue =>
              simp only [Except.ok.injEq, Prod.mk.injEq] at h
              obtain ⟨hb, hr, hn⟩ := h
              subst hb; subst hr; subst hn
              exact outcomeShape_fail today reg _ (by simp [nonEmptyValue])
            case isFalse =>
              exact validateSchemas_shape _ _ _ _ _ h
      case isFalse =>
        split at h
        case isTrue =>
          split at h
          · exact absurd h (by simp)
          next recv hrecv =>
            split at h
            case isTrue =>
              simp only [Except.ok.injEq, Prod.mk.injEq] at h
              obtain ⟨hb, hr, hn⟩ := h
              subst hb; subst hr; subst hn
              exact outcomeShape_fail today reg _ (by simp [nonEmptyValue])
            case isFalse =>
              exact validateSchemas_shape _ _ _ _ _ h
        case isFalse =>
          split at h
          case isTrue =>
            split at h
            · exact absurd h (by simp)
            next recv hrecv =>
              split at h
              · exact absurd h (by simp)
              next hoh hhoh =>
                split at h
                case isTrue =>
                  simp only [Except.ok.injEq, Prod.mk.injEq] at h
                  obtain ⟨hb, hr, hn⟩ := h
                  subst hb; subst hr; subst hn
                  exact outcomeShape_fail today reg _ (by simp [nonEmptyValue])
                case isFalse =>
                  exact validateSchemas_shape _ _ _ _ _ h
          case isFalse =>
            exact validateSchemas_shape _ _ _ _ _ h
    next hmr =>
      exact validateSchemas_shape _ _ _ _ _ h

/-- C4: a registration whose `mother_id` fails the structural UUID check (not
a 36-character string with `'4'` at index 14 and index 19 in `{a, b, 8, 9}`)
is rejected immediately — before any receiver-identity or schema check — with
`data["invalid_fields"]` set to exactly "Invalid UUID mother_id", whatever the
rest of the data holds. -/
theorem mother_uuid_rejected_first (today : Int) (reg : Registration)
    (h : is_valid_uuid_str reg.mother_id = false) :
    validate today reg =
      Except.ok (false, setInvalid reg (Value.str "Invalid UUID mother_id"), 1) := by
  unfold validate
  simp [h]

/-- Witness for C4 at the concrete registration `regBadM`. -/
theorem mother_uuid_rejected_first_witness :
    is_valid_uuid_str regBadM.mother_id = false ∧
    validate today0 regBadM =
      Except.ok (false, setInvalid regBadM (Value.str "Invalid UUID mother_id"), 1) :=
  ⟨by decide, mother_uuid_rejected_first today0 regBadM (by decide)⟩

/-- C9: every terminal outcome of `validate` — each rejection path and each
acceptance path — performs exactly one `registration.save()` before
returning. -/
theorem validate_saves_exactly_once (today : Int) (reg : Registration) (b : Bool)
    (reg' : Registration) (n : Nat)
    (h : validate today reg = Except.ok (b, reg', n)) : n = 1 :=
  (validate_shape today reg b reg' n h).1

/-- Witness for C9 at the concrete registration `regPbl`. -/
theorem validate_saves_exactly_once_witness :
    validate today0 regPbl = Except.ok (true, regPblDone, 1) ∧ 1 = 1 :=
  ⟨by decide, validate_saves_exactly_once today0 regPbl true regPblDone 1 (by decide)⟩

/-- C10: on every failing `validate` outcome the `validated` flag is left
unchanged (so it remains false whenever it was false) and the only `data` key
written is `invalid_fields`; every other key — in particular `reg_type` and
`preg_week` — reads exactly as before. -/
theorem validate_failure_frame (today : Int) (reg : Registration)
    (reg' : Registration) (n : Nat)
    (h : validate today reg = Except.ok (false, reg', n)) :
    reg'.validated = reg.validated ∧
    ∃ v, reg'.data = dinsert reg.data "invalid_fields" v ∧
      dlookup reg'.data "invalid_fields" = some v ∧
      ∀ k, k ≠ "invalid_fields" → dlookup reg'.data k = dlookup reg.data k := by
  obtain ⟨-, -, -, -, hfalse, -⟩ := validate_shape today reg false reg' n h
  obtain ⟨hval, v, hdata, -⟩ := hfalse rfl
  refine ⟨hval, v, hdata, ?_, ?_⟩
  · rw [hdata]; exact dlookup_dinsert_self _ _ _
  · intro k hk; rw [hdata]; exact dlookup_dinsert_ne _ _ _ _ hk

/-- Witness for C10 at the concrete registration `regFam`. -/
theorem validate_failure_frame_witness :
    validate today0 regFam = Except.ok (false, regFamDone, 1) ∧
    (regFamDone.validated = regFam.validated ∧
     ∃ v, regFamDone.data = dinsert regFam.data "invalid_fields" v ∧
       dlookup regFamDone.data "invalid_fields" = some v ∧
       ∀ k, k ≠ "invalid_fields" → dlookup regFamDone.data k = dlookup regFam.data k) :=
  ⟨by decide, validate_failure_frame today0 regFam regFamDone 1 (by decide)⟩

/-- C8: on every accepting outcome `validate` sets `validated`, records in
`data["reg_type"]` exactly the name of the schema the classifier matched (the
first guard of `tasks.py` lines 172-226 that holds), records `data["preg_week"]`
as the pregnancy week of `last_period_date` for the three prebirth schemas,
and for `pbl_loss` writes nothing besides `reg_type`. -/
theorem validate_success_effects (today : Int) (reg : Registration)
    (reg' : Registration) (n : Nat)
    (h : validate today reg = Except.ok (true, reg', n)) :
    reg'.validated = true ∧
    ∃ rt, matchedSchema reg = some rt ∧
      dlookup reg'.data "reg_type" = some (Value.str rt) ∧
      (rt ≠ "pbl_loss" → ∃ lpd, dlookup reg.data "last_period_date" = some lpd ∧
        dlookup reg'.data "preg_week" =
          some (Value.int (calc_pregnancy_week_lmp today lpd))) ∧
      (rt = "pbl_loss" → reg'.data = dinsert reg.data "reg_type" (Value.str "pbl_loss")) := by
  obtain ⟨-, -, -, -, -, htrue⟩ := validate_shape today reg true reg' n h
  obtain ⟨hval, rt, hms, hcase⟩ := htrue rfl
  refine ⟨hval, rt, hms, ?_⟩
  rcases hcase with ⟨hrt, hstage, hsub, lpd, hlpd, hdata⟩ | ⟨hrt, hstage, hsub, hdata⟩
  · have hrtne : rt ≠ "pbl_loss" := by
      rcases hrt with e | e | e <;> subst e <;> decide
    refine ⟨?_, fun _ => ⟨lpd, hlpd, ?_⟩, fun e => absurd e hrtne⟩
    · rw [hdata, dlookup_dinsert_ne _ _ _ _ (by decide)]
      exact dlookup_dinsert_self _ _ _
    · rw [hdata]; exact dlookup_dinsert_self _ _ _
  · subst hrt
    refine ⟨?_, fun hne => absurd rfl hne, fun _ => hdata⟩
    rw [hdata]; exact dlookup_dinsert_self _ _ _

/-- Witness for C8 at two concrete registrations: the prebirth `regPbl`
(matched schema `pbl_pre`, `preg_week` recorded) and the loss `regLoss`
(matched schema `pbl_loss`, only `reg_type` written). -/
theorem validate_success_effects_witness :
    (validate today0 regPbl = Except.ok (true, regPblDone, 1) ∧
     (regPblDone.validated = true ∧
      ∃ rt, matchedSchema regPbl = some rt ∧
        dlookup regPblDone.data "reg_type" = some (Value.str rt) ∧
        (rt ≠ "pbl_loss" → ∃ lpd, dlookup regPbl.data "last_period_date" = some lpd ∧
          dlookup regPblDone.data "preg_week" =
            some (Value.int (calc_pregnancy_week_lmp today0 lpd))) ∧
        (rt = "pbl_loss" →
          regPblDone.data = dinsert regPbl.data "reg_type" (Value.str "pbl_loss")))) ∧
    (validate today0 regLoss = Except.ok (true, regLossDone, 1) ∧
     (regLossDone.validated = true ∧
      ∃ rt, matchedSchema regLoss = some rt ∧
        dlookup regLossDone.data "reg_type" = some (Value.str rt) ∧
        (rt ≠ "pbl_loss" → ∃ lpd, dlookup regLoss.data "last_period_date" = some lpd ∧
          dlookup regLossDone.data "preg_week" =
            some (Value.int (calc_pregnancy_week_lmp today0 lpd))) ∧
        (rt = "pbl_loss" →
          regLossDone.data = dinsert regLoss.data "reg_type" (Value.str "pbl_loss")))) :=
  ⟨⟨by decide, validate_success_effects today0 regPbl regPblDone 1 (by decide)⟩,
   ⟨by decide, validate_success_effects today0 regLoss regLossDone 1 (by decide)⟩⟩

/-- C3 counterexample: after a first successful dispatch has left the
registration with `validated = true` and one `SubscriptionRequest`, a second
dispatch of the same registration id re-validates and appends a second
`SubscriptionRequest`: two rows exist for one registration id. -/
theorem repeat_dispatch_reprovisions :
    run today0 pblState0 = Except.ok ("Validation completed - Success", pblState1) ∧
    pblState1.reg.validated = true ∧
    run today0 pblState1 = Except.ok ("Validation completed - Success", pblState2) ∧
    pblState2.subs.length = 2 :=
  ⟨by decide, by decide, by decide, by decide⟩

/-- C3 amended: a single dispatch appends at most one `SubscriptionRequest`
(none on failure, exactly one on success); the engine never short-circuits on
an already set `validated` flag, so at-most-one per registration id across
repeated dispatches is solely the caller's responsibility. -/
theorem run_appends_at_most_one (today : Int) (st : TaskState) (s : String)
    (st' : TaskState) (h : run today st = Except.ok (s, st')) :
    st'.subs = st.subs ∨ ∃ sub, st'.subs = st.subs ++ [sub] := by
  unfold run at h
  split at h
  · exact absurd h (by simp)
  next b reg' saves hv =>
    split at h
    · split at h
      · exact absurd h (by simp)
      next sub hc =>
        simp only [Except.ok.injEq, Prod.mk.injEq] at h
        exact Or.inr ⟨sub, by rw [← h.2]⟩
    · simp only [Except.ok.injEq, Prod.mk.injEq] at h
      exact Or.inl (by rw [← h.2])

/-- Witness for the amended C3 at the first dispatch for `regPbl`. -/
theorem run_appends_at_most_one_witness :
    run today0 pblState0 = Except.ok ("Validation completed - Success", pblState1) ∧
    (pblState1.subs = pblState0.subs ∨ ∃ sub, pblState1.subs = pblState0.subs ++ [sub]) :=
  ⟨by decide,
   run_appends_at_most_one today0 pblState0 "Validation completed - Success" pblState1
     (by decide)⟩

/-- C1 counterexample: a fully valid loss registration without `baby_age`
validates to true, yet the dispatch raises `KeyError "baby_age"` inside
`create_subscriptionrequests`, so no `SubscriptionRequest` is created although
`validate` returned true. -/
theorem validated_without_subscription :
    validate today0 regLoss = Except.ok (true, regLossDone, 1) ∧
    run today0 { reg := regLoss, subs := [] } = Except.error "baby_age" :=
  ⟨by decide, by decide⟩

/-- C1 amended: whenever the dispatched task completes without an exception, a
true validation is accompanied by exactly one new `SubscriptionRequest` and a
false validation by none, with a non-empty reason stored under
`invalid_fields`; a true validation whose provisioning data is incomplete (a
`pbl_loss` record lacking `baby_age` or `msg_receiver`) instead raises and
creates nothing. -/
theorem run_provisions_exactly_one (today : Int) (st : TaskState) (s : String)
    (st' : TaskState) (h : run today st = Except.ok (s, st')) :
    (s = "Validation completed - Success" ∧ st'.subs.length = st.subs.length + 1) ∨
    (s = "Validation completed - Failure" ∧ st'.subs = st.subs ∧
      ∃ v, dlookup st'.reg.data "invalid_fields" = some v ∧ nonEmptyValue v = true) := by
  unfold run at h
  split at h
  · exact absurd h (by simp)
  next b reg' saves hv =>
    split at h
    next hb =>
      split at h
      · exact absurd h (by simp)
      next sub hc =>
        simp only [Except.ok.injEq, Prod.mk.injEq] at h
        left
        refine ⟨h.1.symm, ?_⟩
        rw [← h.2]
        simp
    next hb =>
      rw [Bool.not_eq_true] at hb
      subst hb
      simp only [Except.ok.injEq, Prod.mk.injEq] at h
      right
      refine ⟨h.1.symm, by rw [← h.2], ?_⟩
      obtain ⟨-, -, -, -, hfalse, -⟩ := validate_shape today st.reg false reg' saves hv
      obtain ⟨-, v, hdata, hne⟩ := hfalse rfl
      refine ⟨v, ?_, hne⟩
      rw [← h.2]
      show dlookup reg'.data "invalid_fields" = some v
      rw [hdata]
      exact dlookup_dinsert_self _ _ _

/-- Witness for the amended C1 at the successful dispatch for `regPbl`. -/
theorem run_provisions_exactly_one_witness :
    run today0 pblState0 = Except.ok ("Validation completed - Success", pblState1) ∧
    (("Validation completed - Success" = "Validation completed - Success" ∧
        pblState1.subs.length = pblState0.subs.length + 1) ∨
     ("Validation completed - Success" = "Validation completed - Failure" ∧
        pblState1.subs = pblState0.subs ∧
        ∃ v, dlookup pblState1.reg.data "invalid_fields" = some v ∧
          nonEmptyValue v = true)) :=
  ⟨by decide,
   run_provisions_exactly_one today0 pblState0 "Validation completed - Success" pblState1
     (by decide)⟩

/-- C7: evaluating `validate` at a family-member registration whose
`receiver_id` equals its `hoh_id` shows the rejection fires as the claim says,
but the stored reason is the source's space-less concatenation
"receiver_id shoulddiffer from hoh_id and mother_id" (`tasks.py` lines
167-168 join `"receiver_id should"` and `"differ from ..."` without a space),
not the claimed "receiver_id should differ from hoh_id and mother_id". -/
theorem receiver_conflict_message_mismatch :
    validate today0 regFam = Except.ok (false, regFamDone, 1) ∧
    dlookup regFamDone.data "invalid_fields" =
      some (Value.str "receiver_id shoulddiffer from hoh_id and mother_id") ∧
    "receiver_id shoulddiffer from hoh_id and mother_id" ≠
      "receiver_id should differ from hoh_id and mother_id" :=
  ⟨by decide, by decide, by decide⟩

theorem validateSchemas_hw_pre_id_first (today : Int) (reg : Registration)
    (reg' : Registration) (n : Nat)
    (hstage : reg.stage = "prebirth")
    (hauth : reg.authority = "hw_limited" ∨ reg.authority = "hw_full")
    (hsub : issubset hw_pre_id reg.data = true)
    (h : validateSchemas today reg = Except.ok (true, reg', n)) :
    ∃ lpd, reg' = acceptPrebirth today reg "hw_pre_id" lpd := by
  unfold validateSchemas at h
  rw [if_pos ⟨hstage, hauth, hsub⟩] at h
  split at h
  · exact absurd h (by simp)
  next fails hc =>
    split at h
    next hf =>
      split at h
      · exact absurd h (by simp)
      next lpd hdg =>
        simp only [Except.ok.injEq, Prod.mk.injEq] at h
        exact ⟨lpd, h.2.1.symm⟩
    next hf =>
      simp only [Except.ok.injEq, Prod.mk.injEq] at h
      exact absurd h.1 (by simp)

/-- C5: a prebirth health-worker registration presenting both the `hw_pre_id`
field set (including `mama_id_no`) and the `hw_pre_dob` field set (including
`mama_dob`) is classified, on success, as `hw_pre_id` — never `hw_pre_dob`:
the `hw_pre_id` branch is evaluated first and returns. -/
theorem hw_pre_id_takes_precedence (today : Int) (reg : Registration)
    (reg' : Registration) (n : Nat)
    (hstage : reg.stage = "prebirth")
    (hauth : reg.authority = "hw_limited" ∨ reg.authority = "hw_full")
    (hsub_id : issubset hw_pre_id reg.data = true)
    (_hsub_dob : issubset hw_pre_dob reg.data = true)
    (h : validate today reg = Except.ok (true, reg', n)) :
    dlookup reg'.data "reg_type" = some (Value.str "hw_pre_id") := by
  have key : ∃ lpd, reg' = acceptPrebirth today reg "hw_pre_id" lpd := by
    unfold validate at h
    split at h
    · exact absurd h (by simp)
    · split at h
      next mr hmr =>
        split at h
        case isTrue =>
          split at h
          · exact absurd h (by simp)
          next hoh hhoh =>
            split at h
            · exact absurd h (by simp)
            next recv hrecv =>
              split at h
              · exact absurd h (by simp)
              · exact validateSchemas_hw_pre_id_first today reg reg' n hstage hauth hsub_id h
        case isFalse =>
          split at h
          case isTrue =>
            split at h
            · exact absurd h (by simp)
            next recv hrecv =>
              split at h
              · exact absurd h (by simp)
              · exact validateSchemas_hw_pre_id_first today reg reg' n hstage hauth hsub_id h
          case isFalse =>
            split at h
            case isTrue =>
              split at h
              · exact absurd h (by simp)
              next recv hrecv =>
                split at h
                · exact absurd h (by simp)
                next hoh hhoh =>
                  split at h
                  · exact absurd h (by simp)
                  · exact validateSchemas_hw_pre_id_first today reg reg' n hstage hauth
                      hsub_id h
            case isFalse =>
              exact validateSchemas_hw_pre_id_first today reg reg' n hstage hauth hsub_id h
      next hmr =>
        exact validateSchemas_hw_pre_id_first today reg reg' n hstage hauth hsub_id h
  obtain ⟨lpd, rfl⟩ := key
  show dlookup (dinsert (dinsert reg.data "reg_type" (Value.str "hw_pre_id")) "preg_week"
    (Value.int (calc_pregnancy_week_lmp today lpd))) "reg_type" = some (Value.str "hw_pre_id")
  rw [dlookup_dinsert_ne _ _ _ _ (by decide)]
  exact dlookup_dinsert_self _ _ _

/-- Witness for C5 at the concrete registration `regHW`, which supplies both
`mama_id_no` and `mama_dob`. -/
theorem hw_pre_id_takes_precedence_witness :
    (regHW.stage = "prebirth" ∧
     (regHW.authority = "hw_limited" ∨ regHW.authority = "hw_full") ∧
     issubset hw_pre_id regHW.data = true ∧
     issubset hw_pre_dob regHW.data = true ∧
     validate today0 regHW = Except.ok (true, regHWDone, 1)) ∧
    dlookup regHWDone.data "reg_type" = some (Value.str "hw_pre_id") :=
  ⟨⟨rfl, Or.inr rfl, by decide, by decide, by decide⟩,
   hw_pre_id_takes_precedence today0 regHW regHWDone 1 rfl (Or.inr rfl) (by decide)
     (by decide) (by decide)⟩


theorem checkField_total (today : Int) (d : Data) (f : String)
    (hf : (dlookup d f).isSome = true)
    (hidt : (f = "mama_dob" ∨ f = "mama_id_no") →
      (dlookup d "mama_id_type").isSome = true)
    (hint : (f = "hoh_id" ∨ f = "receiver_id" ∨ f = "operator_id") →
      isIntValue (dlookup d f) = false) :
    ∃ l, checkField today d f = Except.ok l := by
  obtain ⟨v, hv, hdg⟩ := dget_of_isSome d f hf
  unfold checkField
  by_cases hc1 : f = "hoh_id" ∨ f = "receiver_id" ∨ f = "operator_id"
  · have hnotint := hint hc1
    rw [hv] at hnotint
    rw [if_pos hc1, hdg]
    cases v with
    | str s => exact ⟨_, rfl⟩
    | int z => simp [isIntValue] at hnotint
    | vlist l => exact ⟨_, rfl⟩
  · rw [if_neg hc1]
    by_cases hc2 : f = "language"
    · rw [if_pos hc2, hdg]; exact ⟨_, rfl⟩
    · rw [if_neg hc2]
      by_cases hc3 : f = "msg_type"
      · rw [if_pos hc3, hdg]; exact ⟨_, rfl⟩
      · rw [if_neg hc3]
        by_cases hc4 : f = "last_period_date"
        · rw [if_pos hc4, hdg]
          dsimp only
          by_cases hd : is_valid_date v = true
          · rw [if_pos hd]; exact ⟨_, rfl⟩
          · rw [if_neg hd]; exact ⟨_, rfl⟩
        · rw [if_neg hc4]
          by_cases hc5 : f = "baby_dob"
          · rw [if_pos hc5, hdg]; exact ⟨_, rfl⟩
          · rw [if_neg hc5]
            by_cases hc6 : f = "mama_dob"
            · obtain ⟨w, hw, hdg2⟩ := dget_of_isSome d "mama_id_type" (hidt (Or.inl hc6))
              rw [if_pos hc6, hdg]
              dsimp only
              by_cases hd : is_valid_date v = true
              · rw [if_pos hd, hdg2]; exact ⟨_, rfl⟩
              · rw [if_neg hd]; exact ⟨_, rfl⟩
            · rw [if_neg hc6]
              by_cases hc7 : f = "msg_receiver"
              · rw [if_pos hc7, hdg]; exact ⟨_, rfl⟩
              · rw [if_neg hc7]
                by_cases hc8 : f = "loss_reason"
                · rw [if_pos hc8, hdg]; exact ⟨_, rfl⟩
                · rw [if_neg hc8]
                  by_cases hc9 : f = "hoh_name" ∨ f = "hoh_surname" ∨
                      f = "mama_name" ∨ f = "mama_surname"
                  · rw [if_pos hc9, hdg]; exact ⟨_, rfl⟩
                  · rw [if_neg hc9]
                    by_cases hc10 : f = "mama_id_type"
                    · rw [if_pos hc10, hdg]; exact ⟨_, rfl⟩
                    · rw [if_neg hc10]
                      by_cases hc11 : f = "mama_id_no"
                      · obtain ⟨w, hw, hdg2⟩ :=
                          dget_of_isSome d "mama_id_type" (hidt (Or.inr hc11))
                        rw [if_pos hc11, hdg]
                        dsimp only
                        rw [hdg2]
                        exact ⟨_, rfl⟩
                      · rw [if_neg hc11]
                        exact ⟨[], rfl⟩

theorem check_field_values_total (today : Int) (fields : List String) (d : Data)
    (hp : ∀ f ∈ fields, (dlookup d f).isSome = true)
    (hidt : ∀ f ∈ fields, (f = "mama_dob" ∨ f = "mama_id_no") →
      (dlookup d "mama_id_type").isSome = true)
    (hint : ∀ f, (f = "hoh_id" ∨ f = "receiver_id" ∨ f = "operator_id") →
      isIntValue (dlookup d f) = false) :
    ∃ l, check_field_values today fields d = Except.ok l := by
  induction fields with
  | nil => exact ⟨[], rfl⟩
  | cons f rest ih =>
    obtain ⟨l1, h1⟩ := checkField_total today d f (hp f (List.mem_cons_self f rest))
      (hidt f (List.mem_cons_self f rest)) (hint f)
    obtain ⟨l2, h2⟩ := ih (fun g hg => hp g (List.mem_cons_of_mem f hg))
      (fun g hg => hidt g (List.mem_cons_of_mem f hg))
    refine ⟨l1 ++ l2, ?_⟩
    unfold check_field_values
    rw [h1, h2]

theorem validateSchemas_total (today : Int) (reg : Registration)
    (hint : ∀ f, (f = "hoh_id" ∨ f = "receiver_id" ∨ f = "operator_id") →
      isIntValue (dlookup reg.data f) = false) :
    ∃ r, validateSchemas today reg = Except.ok r := by
  unfold validateSchemas
  by_cases hg1 : reg.stage = "prebirth" ∧
      (reg.authority = "hw_limited" ∨ reg.authority = "hw_full") ∧
      issubset hw_pre_id reg.data = true
  · obtain ⟨l, hl⟩ := check_field_values_total today hw_pre_id reg.data
      (fun f hf => issubset_lookup _ _ _ hg1.2.2 hf)
      (fun f hf hor => issubset_lookup _ _ _ hg1.2.2 (by decide))
      hint
    rw [if_pos hg1, hl]
    dsimp only
    by_cases he : l = []
    · obtain ⟨lpd, hlpd, hdg⟩ := dget_of_isSome reg.data "last_period_date"
        (issubset_lookup _ _ _ hg1.2.2 (by decide))
      rw [if_pos he, hdg]
      exact ⟨_, rfl⟩
    · rw [if_neg he]
      exact ⟨_, rfl⟩
  · rw [if_neg hg1]
    by_cases hg2 : reg.stage = "prebirth" ∧
        (reg.authority = "hw_limited" ∨ reg.authority = "hw_full") ∧
        issubset hw_pre_dob reg.data = true
    · obtain ⟨l, hl⟩ := check_field_values_total today hw_pre_dob reg.data
        (fun f hf => issubset_lookup _ _ _ hg2.2.2 hf)
        (fun f hf hor => issubset_lookup _ _ _ hg2.2.2 (by decide))
        hint
      rw [if_pos hg2, hl]
      dsimp only
      by_cases he : l = []
      · obtain ⟨lpd, hlpd, hdg⟩ := dget_of_isSome reg.data "last_period_date"
          (issubset_lookup _ _ _ hg2.2.2 (by decide))
        rw [if_pos he, hdg]
        exact ⟨_, rfl⟩
      · rw [if_neg he]
        exact ⟨_, rfl⟩
    · rw [if_neg hg2]
      by_cases hg3 : reg.stage = "prebirth" ∧
          (reg.authority = "patient" ∨ reg.authority = "advisor") ∧
          issubset pbl_pre reg.data = true
      · obtain ⟨l, hl⟩ := check_field_values_total today pbl_pre reg.data
          (fun f hf => issubset_lookup _ _ _ hg3.2.2 hf)
          (fun f hf hor => absurd hor
            ((by decide : ∀ g ∈ pbl_pre, ¬ (g = "mama_dob" ∨ g = "mama_id_no")) f hf))
          hint
        rw [if_pos hg3, hl]
        dsimp only
        by_cases he : l = []
        · obtain ⟨lpd, hlpd, hdg⟩ := dget_of_isSome reg.data "last_period_date"
            (issubset_lookup _ _ _ hg3.2.2 (by decide))
          rw [if_pos he, hdg]
          exact ⟨_, rfl⟩
        · rw [if_neg he]
          exact ⟨_, rfl⟩
      · rw [if_neg hg3]
        by_cases hg4 : reg.stage = "loss" ∧
            (reg.authority = "patient" ∨ reg.authority = "advisor") ∧
            issubset pbl_loss reg.data = true
        · obtain ⟨l, hl⟩ := check_field_values_total today pbl_loss reg.data
            (fun f hf => issubset_lookup _ _ _ hg4.2.2 hf)
            (fun f hf hor => absurd hor
              ((by decide : ∀ g ∈ pbl_loss, ¬ (g = "mama_dob" ∨ g = "mama_id_no")) f hf))
            hint
          rw [if_pos hg4, hl]
          dsimp only
          by_cases he : l = []
          · rw [if_pos he]
            exact ⟨_, rfl⟩
          · rw [if_neg he]
            exact ⟨_, rfl⟩
        · rw [if_neg hg4]
          exact ⟨_, rfl⟩

/-- C2 counterexample: a registration whose data holds `msg_receiver =
"head_of_household"` but no `hoh_id` makes `validate` raise `KeyError
"hoh_id"` (`tasks.py` line 145) instead of returning a boolean. -/
theorem validate_raises_keyerror :
    validate today0 regKeyErr = Except.error "hoh_id" := by decide

/-- C2 amended: `validate` returns a boolean outcome — raising neither
KeyError nor TypeError — for every registration in which (i) `hoh_id` and
`receiver_id` are present whenever `msg_receiver` is present and (ii) none of
`hoh_id`, `receiver_id`, `operator_id` holds an integer value. Without (i)
the receiver-identity checks can raise KeyError; without (ii) `is_valid_uuid`
applies `len` to the value and raises TypeError. -/
theorem validate_never_raises (today : Int) (reg : Registration)
    (hpres : (dlookup reg.data "msg_receiver").isSome = true →
      (dlookup reg.data "hoh_id").isSome = true ∧
      (dlookup reg.data "receiver_id").isSome = true)
    (hint : ∀ f ∈ (["hoh_id", "receiver_id", "operator_id"] : List String),
      isIntValue (dlookup reg.data f) = false) :
    ∃ b reg' n, validate today reg = Except.ok (b, reg', n) := by
  have hint' : ∀ f, (f = "hoh_id" ∨ f = "receiver_id" ∨ f = "operator_id") →
      isIntValue (dlookup reg.data f) = false := by
    intro f hor
    rcases hor with e | e | e <;> subst e <;> exact hint _ (by decide)
  unfold validate
  by_cases hm : is_valid_uuid_str reg.mother_id = true
  · rw [if_neg (not_not_intro hm)]
    cases hmr : dlookup reg.data "msg_receiver" with
    | none =>
      obtain ⟨⟨b, reg', n⟩, hr⟩ := validateSchemas_total today reg hint'
      exact ⟨b, reg', n, hr⟩
    | some mr =>
      obtain ⟨h1, h2⟩ := hpres (by rw [hmr]; rfl)
      obtain ⟨hoh, hhoh, hdgh⟩ := dget_of_isSome reg.data "hoh_id" h1
      obtain ⟨recv, hrecv, hdgr⟩ := dget_of_isSome reg.data "receiver_id" h2
      obtain ⟨⟨b, reg', n⟩, hr⟩ := validateSchemas_total today reg hint'
      dsimp only
      by_cases e1 : mr = Value.str "head_of_household"
      · rw [if_pos e1, hdgh]
        dsimp only
        rw [hdgr]
        dsimp only
        by_cases hne : hoh ≠ recv
        · rw [if_pos hne]
          exact ⟨_, _, _, rfl⟩
        · rw [if_neg hne]
          exact ⟨b, reg', n, hr⟩
      · rw [if_neg e1]
        by_cases e2 : mr = Value.str "mother_to_be"
        · rw [if_pos e2, hdgr]
          dsimp only
          by_cases hne : Value.str reg.mother_id ≠ recv
          · rw [if_pos hne]
            exact ⟨_, _, _, rfl⟩
          · rw [if_neg hne]
            exact ⟨b, reg', n, hr⟩
        · rw [if_neg e2]
          by_cases e3 : mr = Value.str "family_member" ∨ mr = Value.str "trusted_friend"
          · rw [if_pos e3, hdgr]
            dsimp only
            rw [hdgh]
            dsimp only
            by_cases hor : recv = hoh ∨ recv = Value.str reg.mother_id
            · rw [if_pos hor]
              exact ⟨_, _, _, rfl⟩
            · rw [if_neg hor]
              exact ⟨b, reg', n, hr⟩
          · rw [if_neg e3]
            exact ⟨b, reg', n, hr⟩
  · rw [if_pos hm]
    exact ⟨_, _, _, rfl⟩

/-- Witness for the amended C2 at the concrete registration `regPbl`. -/
theorem validate_never_raises_witness :
    ((dlookup regPbl.data "msg_receiver").isSome = true →
      (dlookup regPbl.data "hoh_id").isSome = true ∧
      (dlookup regPbl.data "receiver_id").isSome = true) ∧
    (∀ f ∈ (["hoh_id", "receiver_id", "operator_id"] : List String),
      isIntValue (dlookup regPbl.data f) = false) ∧
    ∃ b reg' n, validate today0 regPbl = Except.ok (b, reg', n) :=
  ⟨by decide, by decide, validate_never_raises today0 regPbl (by decide) (by decide)⟩

theorem checkField_lpd (today : Int) (d : Data) (v : Value)
    (hv : dlookup d "last_period_date" = some v) (hd : is_valid_date v = true) :
    checkField today d "last_period_date" =
      Except.ok (if ¬ (2 ≤ calc_pregnancy_week_lmp today v ∧
          calc_pregnancy_week_lmp today v ≤ 42) then
        ["last_period_date out of range"] else []) := by
  unfold checkField
  rw [if_neg (by decide), if_neg (by decide), if_neg (by decide), if_pos rfl,
    dget_eq_ok d _ v hv]
  dsimp only
  rw [if_pos hd]

theorem checkField_no_range (today : Int) (d : Data) (f : String) (l : List String)
    (hne1 : f ≠ "last_period_date") (hne2 : f ≠ "last_period_date out of range")
    (h : checkField today d f = Except.ok l) :
    "last_period_date out of range" ∉ l := by
  unfold checkField at h
  by_cases hc1 : f = "hoh_id" ∨ f = "receiver_id" ∨ f = "operator_id"
  · rw [if_pos hc1] at h
    split at h
    · exact absurd h (by simp)
    next v hv =>
      split at h
      · exact absurd h (by simp)
      next u hu =>
        simp only [Except.ok.injEq] at h
        subst h
        intro hmem
        split at hmem
        · simp at hmem
        · simp at hmem
          exact hne2 hmem.symm
  · rw [if_neg hc1] at h
    by_cases hc2 : f = "language"
    · rw [if_pos hc2] at h
      split at h
      · exact absurd h (by simp)
      next v hv =>
        simp only [Except.ok.injEq] at h
        subst h
        intro hmem
        split at hmem
        · simp at hmem
        · simp at hmem
          exact hne2 hmem.symm
    · rw [if_neg hc2] at h
      by_cases hc3 : f = "msg_type"
      · rw [if_pos hc3] at h
        split at h
        · exact absurd h (by simp)
        next v hv =>
          simp only [Except.ok.injEq] at h
          subst h
          intro hmem
          split at hmem
          · simp at hmem
          · simp at hmem
            exact hne2 hmem.symm
      · rw [if_neg hc3, if_neg hne1] at h
        by_cases hc5 : f = "baby_dob"
        · rw [if_pos hc5] at h
          split at h
          · exact absurd h (by simp)
          next v hv =>
            simp only [Except.ok.injEq] at h
            subst h
            intro hmem
            split at hmem
            · simp at hmem
            · simp at hmem
              exact hne2 hmem.symm
        · rw [if_neg hc5] at h
          by_cases hc6 : f = "mama_dob"
          · rw [if_pos hc6] at h
            split at h
            · exact absurd h (by simp)
            next v hv =>
              split at h
              · split at h
                · exact absurd h (by simp)
                next idt hidt =>
                  simp only [Except.ok.injEq] at h
                  subst h
                  intro hmem
                  split at hmem
                  · simp at hmem
                  · simp at hmem
              · simp only [Except.ok.injEq] at h
                subst h
                intro hmem
                simp at hmem
                exact hne2 hmem.symm
          · rw [if_neg hc6] at h
            by_cases hc7 : f = "msg_receiver"
            · rw [if_pos hc7] at h
              split at h
              · exact absurd h (by simp)
              next v hv =>
                simp only [Except.ok.injEq] at h
                subst h
                intro hmem
                split at hmem
                · simp at hmem
                · simp at hmem
                  exact hne2 hmem.symm
            · rw [if_neg hc7] at h
              by_cases hc8 : f = "loss_reason"
              · rw [if_pos hc8] at h
                split at h
                · exact absurd h (by simp)
                next v hv =>
                  simp only [Except.ok.injEq] at h
                  subst h
                  intro hmem
                  split at hmem
                  · simp at hmem
                  · simp at hmem
                    exact hne2 hmem.symm
              · rw [if_neg hc8] at h
                by_cases hc9 : f = "hoh_name" ∨ f = "hoh_surname" ∨
                    f = "mama_name" ∨ f = "mama_surname"
                · rw [if_pos hc9] at h
                  split at h
                  · exact absurd h (by simp)
                  next v hv =>
                    simp only [Except.ok.injEq] at h
                    subst h
                    intro hmem
                    split at hmem
                    · simp at hmem
                    · simp at hmem
                      exact hne2 hmem.symm
                · rw [if_neg hc9] at h
                  by_cases hc10 : f = "mama_id_type"
                  · rw [if_pos hc10] at h
                    split at h
                    · exact absurd h (by simp)
                    next v hv =>
                      simp only [Except.ok.injEq] at h
                      subst h
                      intro hmem
                      split at hmem
                      · simp at hmem
                      · simp at hmem
                        exact hne2 hmem.symm
                  · rw [if_neg hc10] at h
                    by_cases hc11 : f = "mama_id_no"
                    · rw [if_pos hc11] at h
                      split at h
                      · exact absurd h (by simp)
                      next v hv =>
                        split at h
                        · exact absurd h (by simp)
                        next idt hidt =>
                          simp only [Except.ok.injEq] at h
                          subst h
                          intro hmem
                          rcases List.mem_append.mp hmem with hm | hm
                          · split at hm
                            · simp at hm
                            · simp at hm
                              exact hne2 hm.symm
                          · split at hm
                            · simp at hm
                            · simp at hm
                    · rw [if_neg hc11] at h
                      simp only [Except.ok.injEq] at h
                      subst h
                      intro hmem
                      simp at hmem

theorem cfv_range_mem (today : Int) (fields : List String) (d : Data) (v : Value)
    (hv : dlookup d "last_period_date" = some v) (hd : is_valid_date v = true) :
    ∀ fs, "last_period_date out of range" ∉ fields →
      check_field_values today fields d = Except.ok fs →
      ("last_period_date out of range" ∈ fs ↔
        ("last_period_date" ∈ fields ∧
          ¬ (2 ≤ calc_pregnancy_week_lmp today v ∧
             calc_pregnancy_week_lmp today v ≤ 42))) := by
  induction fields with
  | nil =>
    intro fs hnames h
    simp only [check_field_values, Except.ok.injEq] at h
    subst h
    simp
  | cons f rest ih =>
    intro fs hnames h
    unfold check_field_values at h
    split at h
    · exact absurd h (by simp)
    next l1 h1 =>
      split at h
      · exact absurd h (by simp)
      next l2 h2 =>
        simp only [Except.ok.injEq] at h
        subst h
        have hrest := ih l2 (fun hmem => hnames (List.mem_cons_of_mem f hmem)) h2
        by_cases hf : f = "last_period_date"
        · subst hf
          rw [checkField_lpd today d v hv hd] at h1
          simp only [Except.ok.injEq] at h1
          subst h1
          constructor
          · intro hmem
            refine ⟨List.mem_cons_self _ _, ?_⟩
            rcases List.mem_append.mp hmem with hm | hm
            · split at hm
              next hcond => exact hcond
              next hcond => simp at hm
            · exact (hrest.mp hm).2
          · rintro ⟨-, hrange⟩
            apply List.mem_append.mpr
            left
            rw [if_pos hrange]
            exact List.mem_singleton.mpr rfl
        · have hno := checkField_no_range today d f l1 hf
            (fun e => hnames (by rw [← e]; exact List.mem_cons_self f rest)) h1
          constructor
          · intro hmem
            rcases List.mem_append.mp hmem with hm | hm
            · exact absurd hm hno
            · obtain ⟨hmem2, hrange⟩ := hrest.mp hm
              exact ⟨List.mem_cons_of_mem f hmem2, hrange⟩
          · rintro ⟨hmem2, hrange⟩
            rcases List.mem_cons.mp hmem2 with e | hmem3
            · exact absurd e.symm hf
            · exact List.mem_append.mpr (Or.inr (hrest.mpr ⟨hmem3, hrange⟩))

/-- C6: for every matched schema that requires `last_period_date` (the three
prebirth schemas) and a valid `YYYYMMDD` period date, the range check passes
exactly when the pregnancy week is within [2, 42]; outside that range
"last_period_date out of range" is appended to the failure list. -/
theorem last_period_range_check (today : Int) (fields : List String) (d : Data)
    (v : Value) (fs : List String)
    (hfields : fields = hw_pre_id ∨ fields = hw_pre_dob ∨ fields = pbl_pre)
    (hv : dlookup d "last_period_date" = some v)
    (hd : is_valid_date v = true)
    (h : check_field_values today fields d = Except.ok fs) :
    ("last_period_date out of range" ∈ fs ↔
      ¬ (2 ≤ calc_pregnancy_week_lmp today v ∧
         calc_pregnancy_week_lmp today v ≤ 42)) := by
  have hmem : "last_period_date" ∈ fields := by
    rcases hfields with e | e | e <;> subst e <;> decide
  have hnames : "last_period_date out of range" ∉ fields := by
    rcases hfields with e | e | e <;> subst e <;> decide
  rw [cfv_range_mem today fields d v hv hd fs hnames h]
  simp [hmem]

/-- Witness for C6: at `today1` = 2024-12-31 the period date 2024-03-05 lies
43 weeks back and is rejected; the boundary dates at exactly 2 and 42 weeks
pass the check, those at 1 and 43 weeks fail. -/
theorem last_period_range_check_witness :
    check_field_values today1 pbl_pre data43 =
      Except.ok ["last_period_date out of range"] ∧
    calc_pregnancy_week_lmp today1 (Value.str "20241217") = 2 ∧
    calc_pregnancy_week_lmp today1 (Value.str "20240312") = 42 ∧
    calc_pregnancy_week_lmp today1 (Value.str "20241224") = 1 ∧
    calc_pregnancy_week_lmp today1 (Value.str "20240305") = 43 ∧
    check_field_values today1 pbl_pre
      (dinsert data43 "last_period_date" (Value.str "20241217")) = Except.ok [] ∧
    check_field_values today1 pbl_pre
      (dinsert data43 "last_period_date" (Value.str "20240312")) = Except.ok [] ∧
    check_field_values today1 pbl_pre
      (dinsert data43 "last_period_date" (Value.str "20241224")) =
        Except.ok ["last_period_date out of range"] ∧
    ("last_period_date out of range" ∈ ["last_period_date out of range"] ↔
      ¬ (2 ≤ calc_pregnancy_week_lmp today1 (Value.str "20240305") ∧
         calc_pregnancy_week_lmp today1 (Value.str "20240305") ≤ 42)) :=
  ⟨by decide, by decide, by decide, by decide, by decide, by decide, by decide, by decide,
   last_period_range_check today1 pbl_pre data43 (Value.str "20240305")
     ["last_period_date out of range"] (Or.inr (Or.inr rfl)) (by decide) (by decide)
     (by decide)⟩
